import Mathlib

/-!
Shallow embedding of the RunPod management CLI (`src/cli.py`) and proofs
about its pod-creation / provisioning-wait logic, its startup-command
builder, its SSH-config generator and its list/get/terminate operations.

Provider responses (Python dictionaries) are modelled as structures whose
fields are `Option`-valued exactly where the code reads them with
`dict.get` (absent key = `none`).  Side effects (API calls, sleeps,
prints, file writes, raised exceptions) are modelled as an explicit
`Effect` trace returned by each operation.
-/

/-- A port-binding dictionary from the provider, restricted to the fields
the CLI reads: `isIpPublic` (indexed directly), `ip` and `publicPort`
(read with `.get`, hence optional). -/
structure PortBinding where
  isIpPublic : Bool
  ip : Option String := none
  publicPort : Option Nat := none
deriving DecidableEq

/-- The `runtime` dictionary of a pod.  The code reads `runtime.get("ports")`,
so the ports key itself is optional; its value is a list of port bindings. -/
structure PodRuntime where
  ports : Option (List PortBinding) := none
deriving DecidableEq

/-- A pod dictionary, restricted to the keys the CLI reads.  The nested
`machine` dictionary is flattened into `gpuDisplayName` and `podHostId`
(the code reads them via `pod.get("machine", \x7b\x7d).get(...)`). -/
structure Pod where
  id : Option String := none
  name : Option String := none
  desiredStatus : Option String := none
  gpuDisplayName : Option String := none
  podHostId : Option String := none
  runtime : Option PodRuntime := none
deriving DecidableEq

/-- The loop guard of `create_pod`'s provisioning wait, negated: the Python
test `runtime is None or not runtime.get("ports")` is falsy-based, so the
poll succeeds iff the runtime dictionary is present, has a `ports` key, and
that list is non-empty. -/
def runtimeHasPorts : Option PodRuntime → Bool
  | none => false
  | some rt =>
    match rt.ports with
    | none => false
    | some ps => !ps.isEmpty

/-- The port list read as `pod.get("runtime", \x7b\x7d).get("ports", [])`
(used by `list_pods` and `get_pod`; `create_pod` indexes
`pod["runtime"]["ports"]` after the wait loop has established presence,
which yields the same list). -/
def podReportedPorts (p : Pod) : List PortBinding :=
  match p.runtime with
  | none => []
  | some rt => rt.ports.getD []

/-- Python exceptions raised by the CLI: `ValueError` for the missing API
key, `RuntimeError("Pod provisioning failed")` for the exhausted wait loop,
and `AssertionError` (carrying the offending public-port count) for the
exactly-one-public-port assertions. -/
inductive PyErr
  | valueError
  | runtimeError
  | assertionError (nPublic : Nat)
deriving DecidableEq

/-- Observable side effects of the CLI, in program order. -/
inductive Effect
  | loadDotenv
  | getEnv (name : String)
  | apiCreatePod (dockerArgs : String)
  | apiGetPod (poll : Nat)
  | apiListPods
  | apiTerminatePod (podId : Option String)
  | sleep5
  | printConnectionInfo (hostId : Option String) (ip : Option String) (port : Option Nat)
  | writeFile (path : String) (content : String)
  | raiseErr (e : PyErr)
deriving DecidableEq

/-- Effects that are network calls to the provider API. -/
def isNetworkCall : Effect → Bool
  | Effect.apiCreatePod _ => true
  | Effect.apiGetPod _ => true
  | Effect.apiListPods => true
  | Effect.apiTerminatePod _ => true
  | _ => false

/-- Effects that terminate a pod on the provider side. -/
def terminatesPod : Effect → Bool
  | Effect.apiTerminatePod _ => true
  | _ => false

/-- Whether an effect is a `get_pod` poll. -/
def isPollEffect : Effect → Bool
  | Effect.apiGetPod _ => true
  | _ => false

/-- Number of provisioning polls (`runpod.get_pod` calls) in a trace. -/
def pollCount (tr : List Effect) : Nat :=
  (tr.filter isPollEffect).length

/-- Number of 5-second sleeps in a trace. -/
def sleepCount (tr : List Effect) : Nat :=
  (tr.filter (fun e => e = Effect.sleep5)).length

/-- The `n_attempts = 36` constant of `create_pod`'s wait loop. -/
def n_attempts : Nat := 36

/-- The provisioning wait loop of `create_pod`.  The Python loop keeps a
counter `i` starting at 1 and raises when a poll fails with `i > n_attempts`;
we recurse on the remaining budget `fuel = n_attempts + 1 - i` (so `fuel`
starts at `n_attempts` and the raise happens on a failed poll with
`fuel = 0`).  `polls k` is the provider's response to the k-th `get_pod`
call (0-indexed).  Returns the effect trace of the loop body (polls and
sleeps) and `some k` when the loop exits via `break` at poll `k`, `none`
when it raises `RuntimeError("Pod provisioning failed")`. -/
def provisionPollAux (polls : Nat → Pod) : Nat → Nat → List Effect × Option Nat
  | j, 0 =>
    if runtimeHasPorts (polls j).runtime then ([Effect.apiGetPod j], some j)
    else ([Effect.apiGetPod j], none)
  | j, fuel + 1 =>
    if runtimeHasPorts (polls j).runtime then ([Effect.apiGetPod j], some j)
    else
      let rest := provisionPollAux polls (j + 1) fuel
      (Effect.apiGetPod j :: Effect.sleep5 :: rest.1, rest.2)

/-- The whole wait loop: first poll at index 0, counter `i = 1`
(i.e. remaining budget `n_attempts`). -/
def provisionWait (polls : Nat → Pod) : List Effect × Option Nat :=
  provisionPollAux polls 0 n_attempts

/-- The startup command computed inside `create_pod`: the user args are
wrapped as a trailing segment only when non-empty (Python string
truthiness), and the whole command is one `/bin/bash -c` invocation chaining
`start.sh`, the optional args, the sleep and `terminate.sh`. -/
def buildDockerArgs (args : String) (volume_mount_path : String) (runtime : Int) : String :=
  let argsSeg := if args = "" then "" else " " ++ args ++ ";"
  "/bin/bash -c \x27" ++ volume_mount_path ++ "/start.sh;" ++ argsSeg ++ " sleep " ++
    toString (max (runtime * 60) 20) ++ "; " ++ volume_mount_path ++ "/terminate.sh\x27"

/-- Characters matched by the `[ \t]` classes of `textwrap.dedent`'s regexes. -/
def isIndentChar (c : Char) : Bool := c = ' ' || c = '\t'

/-- A line that `textwrap.dedent` normalises to the empty line: one or more
indent characters and nothing else.  Lines are represented as their
character lists. -/
def isWhitespaceOnlyLine (l : List Char) : Bool :=
  !l.isEmpty && l.all isIndentChar

/-- The leading whitespace of a line (the match of
`textwrap._leading_whitespace_re` for a line with some non-whitespace
content). -/
def lineIndent (l : List Char) : List Char :=
  l.takeWhile isIndentChar

/-- Character-wise longest common start of two lines.  `textwrap.dedent`'s
margin loop (keep the shorter when one indent starts with the other,
otherwise cut at the first mismatch) computes exactly this. -/
def sharedStart (a b : List Char) : List Char :=
  (List.zip a b).takeWhile (fun cd => cd.1 = cd.2) |>.map (fun cd => cd.1)

/-- Remove `margin` from the front of a line when the line starts with it
(the `re.sub` step of `textwrap.dedent`; lines not starting with the margin
-- only the normalised empty lines -- are left alone). -/
def dropMargin (margin l : List Char) : List Char :=
  if l.take margin.length = margin then l.drop margin.length else l

/-- The `textwrap.dedent` algorithm at line granularity (the function splits
its input on newlines; we work on the line list directly, which coincides
with the Python behaviour whenever the interpolated values contain no
newline): whitespace-only lines are normalised to empty, the margin is the
common leading whitespace of the lines with content, and the margin is
removed from every line that starts with it. -/
def dedentLines (lines : List (List Char)) : List (List Char) :=
  let normalised := lines.map (fun l => if isWhitespaceOnlyLine l then [] else l)
  let indents := (normalised.filter (fun l => !l.isEmpty)).map lineIndent
  let margin := match indents with
    | [] => []
    | h :: t => t.foldl sharedStart h
  normalised.map (fun l => dropMargin margin l)

/-- Join a list of lines with newlines (inverse of the split that
`textwrap.dedent` performs). -/
def joinLines : List (List Char) → List Char
  | [] => []
  | [l] => l
  | l :: rest => l ++ '\n' :: joinLines rest

/-- Characters stripped by Python's `str.strip()` for the ASCII content at
hand. -/
def isPySpace (c : Char) : Bool :=
  c = ' ' || c = '\t' || c = '\n' || c = '\r' || c = '\x0b' || c = '\x0c'

/-- Remove trailing `isPySpace` characters from a character list. -/
def stripRightChars : List Char → List Char
  | [] => []
  | c :: cs =>
    let r := stripRightChars cs
    if r.isEmpty && isPySpace c then [] else c :: r

/-- Python's `str.strip()` on a character list: drop leading and trailing
whitespace. -/
def pyStripChars (l : List Char) : List Char :=
  stripRightChars (l.dropWhile isPySpace)

/-- The body of the f-string inside `generate_ssh_config`, as its list of
source lines: an empty first line, `Host runpod` indented 12 spaces, the
`HostName`/`User`/`Port` lines and the conditional `ForwardAgent yes`
segment indented 14 spaces, and a final 8-space line before the closing
quotes.  `port` is the `str()`-rendering of the port value interpolated by
the f-string. -/
def sshTemplateLines (ip user port : String) (forward_agent : Bool) : List (List Char) :=
  [[],
   "            Host runpod".data,
   "              HostName ".data ++ ip.data,
   "              User ".data ++ user.data,
   "              Port ".data ++ port.data,
   "              ".data ++ (if forward_agent then "ForwardAgent yes".data else []),
   "        ".data]

/-- The `generate_ssh_config` method: `textwrap.dedent` applied to the
f-string template, then `str.strip()`. -/
def generate_ssh_config (ip : String) (port : String) (user : String)
    (forward_agent : Bool) : String :=
  ⟨pyStripChars (joinLines (dedentLines (sshTemplateLines ip user port forward_agent)))⟩

/-- Python f-string rendering of an optional string (`None` prints as the
literal text `None`). -/
def pyOptStr : Option String → String
  | none => "None"
  | some s => s

/-- Python f-string rendering of an optional number. -/
def pyOptNat : Option Nat → String
  | none => "None"
  | some n => toString n

/-- Semantics of `pathlib.Path.write_text`: the file is opened in `w` mode,
so the resulting file content is the written string regardless of any prior
content (no merge). -/
def write_text (_priorContent : Option String) (content : String) : String :=
  content

/-- The parameters of `create_pod`, with the source's default values. -/
structure CreateParams where
  name : String := "test"
  image_name : String := "runpod/pytorch:2.4.0-py3.11-cuda12.4.1-devel-ubuntu22.04"
  gpu_type : String := "NVIDIA A40"
  cloud_type : String := "SECURE"
  gpu_count : Nat := 1
  volume_in_gb : Nat := 10
  min_vcpu_count : Nat := 1
  min_memory_in_gb : Nat := 1
  container_disk_in_gb : Nat := 30
  args : String := ""
  volume_mount_path : String := "/ssd"
  env : Option (List (String × String)) := none
  runtime : Int := 120
  update_ssh_config : Bool := true
  forward_agent : Bool := false
  network_volume_id : String := "t3uq90cdfb"
deriving DecidableEq

/-- Outcome of one `create_pod` invocation: the effect trace it produced
(ending in a `raiseErr` when an exception escapes), the exception if any,
and the entries added to the manager's `pod_host_ids` dictionary. -/
structure CreatePodResult where
  trace : List Effect
  error : Option PyErr
  pod_host_ids_added : List (String × String)
deriving DecidableEq

/-- The `create_pod` method.  `createResp` is the provider's response to
`runpod.create_pod`; `polls k` is its response to the k-th `get_pod` poll of
the wait loop.  The startup command is computed first (the Python variable
`runtime` is only later shadowed by the poll response), then the wait loop
runs; on exhaustion a `RuntimeError` escapes, otherwise the
exactly-one-public-port assertion is checked on the ready pod's ports, and
on success the connection info is printed and, when requested, the SSH
config fragment is written to `~/.ssh/runpod_config`. -/
def create_pod (p : CreateParams) (createResp : Pod) (polls : Nat → Pod) :
    CreatePodResult :=
  let dockerArgs := buildDockerArgs p.args p.volume_mount_path p.runtime
  let pod_id := createResp.id
  let pod_host_id := createResp.podHostId
  let hostIdsAdded :=
    match pod_host_id with
    | none => []
    | some h => if h = "" then [] else [(pyOptStr pod_id, h)]
  let w := provisionWait polls
  let pre := Effect.apiCreatePod dockerArgs :: w.1
  match w.2 with
  | none =>
      { trace := pre ++ [Effect.raiseErr PyErr.runtimeError],
        error := some PyErr.runtimeError,
        pod_host_ids_added := hostIdsAdded }
  | some j =>
      let pod := polls j
      let public_ip := (podReportedPorts pod).filter (fun b => b.isIpPublic)
      match public_ip with
      | [b] =>
          let ip := b.ip
          let port := b.publicPort
          let sshEffects :=
            if p.update_ssh_config then
              [Effect.writeFile ".ssh/runpod_config"
                (generate_ssh_config (pyOptStr ip) (pyOptNat port) "root" p.forward_agent)]
            else []
          { trace := pre ++ [Effect.printConnectionInfo pod_host_id ip port] ++ sshEffects,
            error := none,
            pod_host_ids_added := hostIdsAdded }
      | other =>
          { trace := pre ++ [Effect.raiseErr (PyErr.assertionError other.length)],
            error := some (PyErr.assertionError other.length),
            pod_host_ids_added := hostIdsAdded }

/-- The manager object constructed by `RunPodManager.__init__`. -/
structure RunPodManager where
  api_key : String
  pod_host_ids : List (String × String)
deriving DecidableEq

/-- The `RunPodManager.__init__` constructor: load the `.env` file, read
`RUNPOD_API_KEY` from the environment, and raise `ValueError` when the
result is falsy (absent or empty).  Returns the effect trace of the
constructor together with the constructed manager or the raised error.
No constructor in the trace is a network call. -/
def initRunPodManager (envKey : Option String) : List Effect × Except PyErr RunPodManager :=
  let tr := [Effect.loadDotenv, Effect.getEnv "RUNPOD_API_KEY"]
  match envKey with
  | none => (tr, Except.error PyErr.valueError)
  | some k =>
      if k = "" then (tr, Except.error PyErr.valueError)
      else (tr, Except.ok { api_key := k, pod_host_ids := [] })

/-- The fields `list_pods` prints for one pod. -/
structure PodDisplay where
  id : Option String
  name : Option String
  machineType : Option String
  status : Option String
  publicIp : Option String
  publicPort : Option Nat
deriving DecidableEq

/-- The per-pod body of `list_pods`' loop: read the display fields, filter
the reported ports for `isIpPublic`, assert that exactly one remains, and
display its `ip` and `publicPort`. -/
def showPod (p : Pod) : Except PyErr PodDisplay :=
  let public_ip := (podReportedPorts p).filter (fun b => b.isIpPublic)
  match public_ip with
  | [b] =>
      Except.ok { id := p.id, name := p.name, machineType := p.gpuDisplayName,
                  status := p.desiredStatus, publicIp := b.ip, publicPort := b.publicPort }
  | other => Except.error (PyErr.assertionError other.length)

/-- The `list_pods` method over the provider's pod list: each pod is
displayed in turn; the first pod failing the exactly-one-public-port
assertion aborts the whole listing with an `AssertionError`. -/
def list_pods : List Pod → Except PyErr (List PodDisplay)
  | [] => Except.ok []
  | p :: rest =>
      match showPod p with
      | Except.error e => Except.error e
      | Except.ok d =>
          match list_pods rest with
          | Except.error e => Except.error e
          | Except.ok ds => Except.ok (d :: ds)

/-- What `get_pod` prints: the same fields as `list_pods` plus the pod host
id (the full-data dump is the pod itself). -/
structure GetPodDisplay where
  base : PodDisplay
  podHostId : Option String
deriving DecidableEq

/-- The `get_pod` method for the provider's response `p`: same
exactly-one-public-port assertion as `list_pods`, applied unconditionally. -/
def get_pod (p : Pod) : Except PyErr GetPodDisplay :=
  match showPod p with
  | Except.error e => Except.error e
  | Except.ok d => Except.ok { base := d, podHostId := p.podHostId }

/-- The `terminate_pod` method: a single provider call. -/
def terminate_pod (pod_id : String) : List Effect :=
  [Effect.apiTerminatePod (some pod_id)]

/-- The effect trace of a fully failed wait with first poll index `j` and
remaining budget `fuel`: poll, sleep, poll, sleep, ..., with a final poll
not followed by a sleep. -/
def failTraceAux (j : Nat) : Nat → List Effect
  | 0 => [Effect.apiGetPod j]
  | fuel + 1 => Effect.apiGetPod j :: Effect.sleep5 :: failTraceAux (j + 1) fuel

/-- Whether an effect writes a file. -/
def isWriteFile : Effect → Bool
  | Effect.writeFile _ _ => true
  | _ => false

/-- A pod response with no runtime dictionary yet. -/
def pendingPod : Pod := {}

/-- A provisioned pod response with one public port binding. -/
def readyExamplePod : Pod :=
  { runtime := some { ports := some [{ isIpPublic := true, ip := some "1.2.3.4",
                                       publicPort := some 40022 }] } }

/-- Poll responses that report no ports on every poll. -/
def pollsNeverReady : Nat → Pod := fun _ => pendingPod

/-- Poll responses that report no ports on each of the first 36 polls and a
provisioned pod from the 37th poll (index 36) on. -/
def polls36Fail : Nat → Pod := fun j => if j < 36 then pendingPod else readyExamplePod

/-- Poll responses that report no ports on the first 3 polls and a
provisioned pod from the 4th poll (index 3) on. -/
def polls3Fail : Nat → Pod := fun j => if j < 3 then pendingPod else readyExamplePod

/-- A provisioned pod response carrying two public port bindings. -/
def twoPublicPod : Pod :=
  { runtime := some { ports := some [
      { isIpPublic := true, ip := some "1.2.3.4", publicPort := some 40022 },
      { isIpPublic := true, ip := some "5.6.7.8", publicPort := some 40023 }] } }

/-- A provisioned pod response whose ports are one non-public binding
followed by one public binding with ip 1.2.3.4 and external port 40022. -/
def mixedPortsPod : Pod :=
  { runtime := some { ports := some [
      { isIpPublic := false, ip := some "10.1.2.3", publicPort := some 12345 },
      { isIpPublic := true, ip := some "1.2.3.4", publicPort := some 40022 }] } }

theorem strEq_of_data {a b : String} (h : a.data = b.data) : a = b := by
  cases a; cases b; exact congrArg String.mk h

theorem pollCount_cons (e : Effect) (tr : List Effect) :
    pollCount (e :: tr) = (if isPollEffect e then 1 else 0) + pollCount tr := by
  by_cases h : isPollEffect e
  · simp [pollCount, List.filter_cons, h]; omega
  · simp [pollCount, List.filter_cons, h]

theorem pollCount_append (a b : List Effect) :
    pollCount (a ++ b) = pollCount a + pollCount b := by
  simp [pollCount, List.filter_append]

theorem provisionPollAux_none_iff (polls : Nat → Pod) :
    ∀ fuel j, (provisionPollAux polls j fuel).2 = none ↔
      ∀ k, k ≤ fuel → runtimeHasPorts (polls (j + k)).runtime = false := by
  intro fuel
  induction fuel with
  | zero =>
    intro j
    by_cases h : runtimeHasPorts (polls j).runtime = true
    · simp only [provisionPollAux, h, if_true]
      constructor
      · intro hc; exact absurd hc (by simp)
      · intro hall
        have h0 := hall 0 (Nat.le_refl 0)
        rw [Nat.add_zero, h] at h0
        cases h0
    · rw [Bool.not_eq_true] at h
      simp only [provisionPollAux, h, Bool.false_eq_true, if_false]
      constructor
      · intro _ k hk
        have : k = 0 := Nat.le_zero.mp hk
        subst this
        rw [Nat.add_zero]; exact h
      · intro _; trivial
  | succ fuel ih =>
    intro j
    by_cases h : runtimeHasPorts (polls j).runtime = true
    · simp only [provisionPollAux, h, if_true]
      constructor
      · intro hc; exact absurd hc (by simp)
      · intro hall
        have h0 := hall 0 (Nat.zero_le _)
        rw [Nat.add_zero, h] at h0
        cases h0
    · rw [Bool.not_eq_true] at h
      simp only [provisionPollAux, h, Bool.false_eq_true, if_false]
      rw [ih (j + 1)]
      constructor
      · intro hall k hk
        match k with
        | 0 => rw [Nat.add_zero]; exact h
        | k + 1 =>
          have := hall k (by omega)
          have heq : j + 1 + k = j + (k + 1) := by omega
          rw [heq] at this
          exact this
      · intro hall k hk
        have := hall (k + 1) (by omega)
        have heq : j + (k + 1) = j + 1 + k := by omega
        rw [heq] at this
        exact this

theorem provisionPollAux_none_trace (polls : Nat → Pod) :
    ∀ fuel j, (provisionPollAux polls j fuel).2 = none →
      (provisionPollAux polls j fuel).1 = failTraceAux j fuel := by
  intro fuel
  induction fuel with
  | zero =>
    intro j hn
    by_cases h : runtimeHasPorts (polls j).runtime = true
    · simp [provisionPollAux, h] at hn
    · rw [Bool.not_eq_true] at h
      simp [provisionPollAux, h, failTraceAux]
  | succ fuel ih =>
    intro j hn
    by_cases h : runtimeHasPorts (polls j).runtime = true
    · simp [provisionPollAux, h] at hn
    · rw [Bool.not_eq_true] at h
      simp only [provisionPollAux, h, Bool.false_eq_true, if_false] at hn ⊢
      rw [failTraceAux]
      simp only [List.cons.injEq, true_and]
      exact ih (j + 1) hn

theorem provisionPollAux_pollCount_le (polls : Nat → Pod) :
    ∀ fuel j, pollCount (provisionPollAux polls j fuel).1 ≤ fuel + 1 := by
  intro fuel
  induction fuel with
  | zero =>
    intro j
    by_cases h : runtimeHasPorts (polls j).runtime = true
    · simp [provisionPollAux, h, pollCount, List.filter, isPollEffect]
    · simp [provisionPollAux, h, pollCount, List.filter, isPollEffect]
  | succ fuel ih =>
    intro j
    by_cases h : runtimeHasPorts (polls j).runtime = true
    · simp [provisionPollAux, h, pollCount, List.filter, isPollEffect]
    · rw [Bool.not_eq_true] at h
      simp only [provisionPollAux, h, Bool.false_eq_true, if_false]
      rw [pollCount_cons, pollCount_cons]
      have := ih (j + 1)
      simp [isPollEffect]
      omega

theorem provisionPollAux_ready (polls : Nat → Pod) :
    ∀ fuel j j0, j ≤ j0 → j0 ≤ j + fuel →
      runtimeHasPorts (polls j0).runtime = true →
      (∀ k, j ≤ k → k < j0 → runtimeHasPorts (polls k).runtime = false) →
      (provisionPollAux polls j fuel).2 = some j0 ∧
        pollCount (provisionPollAux polls j fuel).1 = (j0 - j) + 1 := by
  intro fuel
  induction fuel with
  | zero =>
    intro j j0 h1 h2 hok _hfirst
    have hjj : j = j0 := by omega
    subst hjj
    simp [provisionPollAux, hok, pollCount, List.filter, isPollEffect]
  | succ fuel ih =>
    intro j j0 h1 h2 hok hfirst
    by_cases h : runtimeHasPorts (polls j).runtime = true
    · have hjj : j = j0 := by
        by_contra hne
        have hlt : j < j0 := by omega
        have hf := hfirst j (Nat.le_refl j) hlt
        rw [h] at hf
        cases hf
      subst hjj
      simp [provisionPollAux, h, pollCount, List.filter, isPollEffect]
    · have hne : j ≠ j0 := by
        intro he; rw [he, hok] at h; exact h rfl
      have hlt : j < j0 := by omega
      have hih := ih (j + 1) j0 (by omega) (by omega) hok
        (fun k hk1 hk2 => hfirst k (by omega) hk2)
      rw [Bool.not_eq_true] at h
      simp only [provisionPollAux, h, Bool.false_eq_true, if_false]
      refine ⟨hih.1, ?_⟩
      rw [pollCount_cons, pollCount_cons, hih.2]
      simp [isPollEffect]
      omega

theorem provisionPollAux_mem_shape (polls : Nat → Pod) :
    ∀ fuel j, ∀ e ∈ (provisionPollAux polls j fuel).1,
      (∃ k, e = Effect.apiGetPod k) ∨ e = Effect.sleep5 := by
  intro fuel
  induction fuel with
  | zero =>
    intro j e he
    by_cases h : runtimeHasPorts (polls j).runtime = true
    · simp [provisionPollAux, h] at he; subst he; exact Or.inl ⟨j, rfl⟩
    · rw [Bool.not_eq_true] at h
      simp [provisionPollAux, h] at he; subst he; exact Or.inl ⟨j, rfl⟩
  | succ fuel ih =>
    intro j e he
    by_cases h : runtimeHasPorts (polls j).runtime = true
    · simp [provisionPollAux, h] at he; subst he; exact Or.inl ⟨j, rfl⟩
    · rw [Bool.not_eq_true] at h
      simp only [provisionPollAux, h, Bool.false_eq_true, if_false, List.mem_cons] at he
      rcases he with he | he | he
      · subst he; exact Or.inl ⟨j, rfl⟩
      · subst he; exact Or.inr rfl
      · exact ih (j + 1) e he

theorem stripRightChars_append (l m : List Char) :
    stripRightChars (l ++ m) =
      if (stripRightChars m).isEmpty then stripRightChars l else l ++ stripRightChars m := by
  induction l with
  | nil =>
    simp only [List.nil_append]
    by_cases h : (stripRightChars m).isEmpty
    · rw [if_pos h]
      rw [List.isEmpty_iff] at h
      rw [h]
      rfl
    · rw [if_neg h]
  | cons c l ih =>
    simp only [List.cons_append]
    rw [stripRightChars, ih]
    by_cases h : (stripRightChars m).isEmpty
    · rw [if_pos h, if_pos h]
      rw [stripRightChars]
    · rw [if_neg h, if_neg h]
      have hm2 : stripRightChars m ≠ [] := by
        intro he; rw [he] at h; exact h rfl
      have hemp : (l ++ stripRightChars m).isEmpty = false := by
        cases hl : l ++ stripRightChars m with
        | nil => exact absurd (List.append_eq_nil.mp hl).2 hm2
        | cons a t => rfl
      rw [hemp]
      simp

theorem stripRightChars_concat_nonempty (a b : List Char)
    (hb : stripRightChars b ≠ []) :
    stripRightChars (a ++ b) = a ++ stripRightChars b := by
  rw [stripRightChars_append]
  have : (stripRightChars b).isEmpty = false := by
    cases hl : stripRightChars b with
    | nil => exact absurd hl hb
    | cons x t => rfl
  rw [this]
  simp

theorem stripRightChars_cons_of_ne (c : Char) (l : List Char)
    (h : stripRightChars l ≠ []) :
    stripRightChars (c :: l) = c :: stripRightChars l := by
  rw [stripRightChars]
  have : (stripRightChars l).isEmpty = false := by
    cases hl : stripRightChars l with
    | nil => exact absurd hl h
    | cons x t => rfl
  rw [this]
  simp

theorem takeWhile_append_left (p : Char → Bool) (l x : List Char)
    (h : (l.takeWhile p).length < l.length) :
    (l ++ x).takeWhile p = l.takeWhile p := by
  induction l with
  | nil => simp at h
  | cons c t ih =>
    by_cases hc : p c
    · simp only [List.cons_append, List.takeWhile_cons, hc, if_true]
      congr 1
      apply ih
      simp only [List.takeWhile_cons, hc, if_true, List.length_cons] at h
      omega
    · simp only [List.cons_append, List.takeWhile_cons, hc]
      simp [Bool.not_eq_true] at hc
      simp [hc]

theorem wsOnly_append_false (l x : List Char) (h : l.all isIndentChar = false) :
    isWhitespaceOnlyLine (l ++ x) = false := by
  simp only [isWhitespaceOnlyLine, List.all_append, h, Bool.false_and, Bool.and_false]

theorem isEmpty_append_false (l x : List Char) (h : l.isEmpty = false) :
    (l ++ x).isEmpty = false := by
  cases l with
  | nil => cases h
  | cons c t => rfl

theorem dropMargin_append (margin l x : List Char)
    (hlen : margin.length ≤ l.length)
    (htake : l.take margin.length = margin) :
    dropMargin margin (l ++ x) = l.drop margin.length ++ x := by
  rw [dropMargin, List.take_append_of_le_length hlen, htake, if_pos rfl,
      List.drop_append_of_le_length hlen]

theorem dedentLines_sshTemplate_false (ip user port : String) :
    dedentLines (sshTemplateLines ip user port false) =
      [[], "Host runpod".data, "  HostName ".data ++ ip.data,
       "  User ".data ++ user.data, "  Port ".data ++ port.data, [], []] := by
  have hws2 : isWhitespaceOnlyLine ("              HostName ".data ++ ip.data) = false :=
    wsOnly_append_false _ _ (by decide)
  have hws3 : isWhitespaceOnlyLine ("              User ".data ++ user.data) = false :=
    wsOnly_append_false _ _ (by decide)
  have hws4 : isWhitespaceOnlyLine ("              Port ".data ++ port.data) = false :=
    wsOnly_append_false _ _ (by decide)
  have he2 : ("              HostName ".data ++ ip.data).isEmpty = false :=
    isEmpty_append_false _ _ (by decide)
  have he3 : ("              User ".data ++ user.data).isEmpty = false :=
    isEmpty_append_false _ _ (by decide)
  have he4 : ("              Port ".data ++ port.data).isEmpty = false :=
    isEmpty_append_false _ _ (by decide)
  have hi2 : lineIndent ("              HostName ".data ++ ip.data) = "              ".data := by
    rw [lineIndent, takeWhile_append_left _ _ _ (by decide)]
    decide
  have hi3 : lineIndent ("              User ".data ++ user.data) = "              ".data := by
    rw [lineIndent, takeWhile_append_left _ _ _ (by decide)]
    decide
  have hi4 : lineIndent ("              Port ".data ++ port.data) = "              ".data := by
    rw [lineIndent, takeWhile_append_left _ _ _ (by decide)]
    decide
  have hd2 : dropMargin "            ".data ("              HostName ".data ++ ip.data) =
      "  HostName ".data ++ ip.data := by
    rw [dropMargin_append _ _ _ (by decide) (by decide)]
    have hdrop : "              HostName ".data.drop ("            ".data.length) =
        "  HostName ".data := by decide
    rw [hdrop]
  have hd3 : dropMargin "            ".data ("              User ".data ++ user.data) =
      "  User ".data ++ user.data := by
    rw [dropMargin_append _ _ _ (by decide) (by decide)]
    have hdrop : "              User ".data.drop ("            ".data.length) =
        "  User ".data := by decide
    rw [hdrop]
  have hd4 : dropMargin "            ".data ("              Port ".data ++ port.data) =
      "  Port ".data ++ port.data := by
    rw [dropMargin_append _ _ _ (by decide) (by decide)]
    have hdrop : "              Port ".data.drop ("            ".data.length) =
        "  Port ".data := by decide
    rw [hdrop]
  have hws1 : isWhitespaceOnlyLine "            Host runpod".data = false := by decide
  have hws5 : isWhitespaceOnlyLine "              ".data = true := by decide
  have hws6 : isWhitespaceOnlyLine "        ".data = true := by decide
  have hws0 : isWhitespaceOnlyLine ([] : List Char) = false := by decide
  have he1 : "            Host runpod".data.isEmpty = false := by decide
  have hi1 : lineIndent "            Host runpod".data = "            ".data := by decide
  have hfold : List.foldl sharedStart "            ".data
      ["              ".data, "              ".data, "              ".data] =
      "            ".data := by decide
  have hd0 : dropMargin "            ".data [] = [] := by decide
  have hd1 : dropMargin "            ".data "            Host runpod".data =
      "Host runpod".data := by decide
  simp only [sshTemplateLines, dedentLines, if_false, List.append_nil, List.map_cons,
    List.map_nil, hws0, hws1, hws2, hws3, hws4, hws5, hws6, Bool.false_eq_true, if_true,
    List.filter_cons, List.filter_nil, he1, he2, he3, he4, List.isEmpty_nil, Bool.not_true,
    Bool.not_false, hi1, hi2, hi3, hi4, hfold, hd0, hd1, hd2, hd3, hd4]

theorem dedentLines_sshTemplate_true (ip user port : String) :
    dedentLines (sshTemplateLines ip user port true) =
      [[], "Host runpod".data, "  HostName ".data ++ ip.data,
       "  User ".data ++ user.data, "  Port ".data ++ port.data,
       "  ForwardAgent yes".data, []] := by
  have hws2 : isWhitespaceOnlyLine ("              HostName ".data ++ ip.data) = false :=
    wsOnly_append_false _ _ (by decide)
  have hws3 : isWhitespaceOnlyLine ("              User ".data ++ user.data) = false :=
    wsOnly_append_false _ _ (by decide)
  have hws4 : isWhitespaceOnlyLine ("              Port ".data ++ port.data) = false :=
    wsOnly_append_false _ _ (by decide)
  have he2 : ("              HostName ".data ++ ip.data).isEmpty = false :=
    isEmpty_append_false _ _ (by decide)
  have he3 : ("              User ".data ++ user.data).isEmpty = false :=
    isEmpty_append_false _ _ (by decide)
  have he4 : ("              Port ".data ++ port.data).isEmpty = false :=
    isEmpty_append_false _ _ (by decide)
  have hi2 : lineIndent ("              HostName ".data ++ ip.data) = "              ".data := by
    rw [lineIndent, takeWhile_append_left _ _ _ (by decide)]
    decide
  have hi3 : lineIndent ("              User ".data ++ user.data) = "              ".data := by
    rw [lineIndent, takeWhile_append_left _ _ _ (by decide)]
    decide
  have hi4 : lineIndent ("              Port ".data ++ port.data) = "              ".data := by
    rw [lineIndent, takeWhile_append_left _ _ _ (by decide)]
    decide
  have hd2 : dropMargin "            ".data ("              HostName ".data ++ ip.data) =
      "  HostName ".data ++ ip.data := by
    rw [dropMargin_append _ _ _ (by decide) (by decide)]
    have hdrop : "              HostName ".data.drop ("            ".data.length) =
        "  HostName ".data := by decide
    rw [hdrop]
  have hd3 : dropMargin "            ".data ("              User ".data ++ user.data) =
      "  User ".data ++ user.data := by
    rw [dropMargin_append _ _ _ (by decide) (by decide)]
    have hdrop : "              User ".data.drop ("            ".data.length) =
        "  User ".data := by decide
    rw [hdrop]
  have hd4 : dropMargin "            ".data ("              Port ".data ++ port.data) =
      "  Port ".data ++ port.data := by
    rw [dropMargin_append _ _ _ (by decide) (by decide)]
    have hdrop : "              Port ".data.drop ("            ".data.length) =
        "  Port ".data := by decide
    rw [hdrop]
  have hws1 : isWhitespaceOnlyLine "            Host runpod".data = false := by decide
  have hws5 : isWhitespaceOnlyLine ("              ".data ++ "ForwardAgent yes".data) = false := by
    decide
  have hws6 : isWhitespaceOnlyLine "        ".data = true := by decide
  have hws0 : isWhitespaceOnlyLine ([] : List Char) = false := by decide
  have he1 : "            Host runpod".data.isEmpty = false := by decide
  have he5 : ("              ".data ++ "ForwardAgent yes".data).isEmpty = false := by decide
  have hi1 : lineIndent "            Host runpod".data = "            ".data := by decide
  have hi5 : lineIndent ("              ".data ++ "ForwardAgent yes".data) =
      "              ".data := by decide
  have hfold : List.foldl sharedStart "            ".data
      ["              ".data, "              ".data, "              ".data,
       "              ".data] = "            ".data := by decide
  have hd0 : dropMargin "            ".data [] = [] := by decide
  have hd1 : dropMargin "            ".data "            Host runpod".data =
      "Host runpod".data := by decide
  have hd5 : dropMargin "            ".data ("              ".data ++ "ForwardAgent yes".data) =
      "  ForwardAgent yes".data := by decide
  simp only [sshTemplateLines, dedentLines, eq_self_iff_true, if_true, if_false,
    List.map_cons, List.map_nil, hws0, hws1, hws2, hws3, hws4, hws5, hws6, Bool.false_eq_true,
    List.filter_cons, List.filter_nil, he1, he2, he3, he4, he5, List.isEmpty_nil,
    Bool.not_true, Bool.not_false, hi1, hi2, hi3, hi4, hi5, hfold, hd0, hd1, hd2, hd3, hd4, hd5]

/-- C9 helper: the generated SSH config fragment in closed form.  The port
string may not be empty or end in whitespace (it is the rendering of a
port number in the code), since a trailing-whitespace port would be eaten
by the final `strip()`. -/
theorem generate_ssh_config_fragment (ip port user : String) (fa : Bool)
    (hp1 : port.data ≠ []) (hp2 : stripRightChars port.data = port.data) :
    generate_ssh_config ip port user fa =
      "Host runpod\n  HostName " ++ ip ++ "\n  User " ++ user ++ "\n  Port " ++ port ++
        (if fa then "\n  ForwardAgent yes" else "") := by
  cases fa
  · apply strEq_of_data
    rw [generate_ssh_config, dedentLines_sshTemplate_false]
    show pyStripChars (joinLines _) = _
    simp only [joinLines, pyStripChars, List.nil_append]
    rw [List.dropWhile_cons]
    simp only [show isPySpace '\n' = true from by decide, if_true]
    have hT : List.dropWhile isPySpace ("Host runpod".data ++
        ('\n' :: (("  HostName ".data ++ ip.data) ++
          '\n' :: (("  User ".data ++ user.data) ++
            '\n' :: (("  Port ".data ++ port.data) ++ '\n' :: '\n' :: []))))) =
        "Host runpod".data ++
        ('\n' :: (("  HostName ".data ++ ip.data) ++
          '\n' :: (("  User ".data ++ user.data) ++
            '\n' :: (("  Port ".data ++ port.data) ++ '\n' :: '\n' :: [])))) := by
      rw [show "Host runpod".data = 'H' :: "ost runpod".data from by decide]
      rw [List.cons_append, List.dropWhile_cons]
      simp [show isPySpace 'H' = false from by decide]
    rw [hT]
    have h1 : stripRightChars (port.data ++ ['\n', '\n']) = port.data := by
      rw [stripRightChars_append, show stripRightChars ['\n', '\n'] = [] from by decide]
      simpa using hp2
    have h2 : stripRightChars (("  Port ".data ++ port.data) ++ ('\n' :: '\n' :: [])) =
        "  Port ".data ++ port.data := by
      rw [List.append_assoc]
      rw [stripRightChars_concat_nonempty _ _ (by rw [h1]; exact hp1)]
      rw [h1]
    have h3 : stripRightChars
        ('\n' :: (("  Port ".data ++ port.data) ++ '\n' :: '\n' :: [])) =
        '\n' :: ("  Port ".data ++ port.data) := by
      rw [stripRightChars_cons_of_ne _ _ (by
        rw [h2]
        intro hc
        exact absurd (List.append_eq_nil.mp hc).1 (by decide))]
      rw [h2]
    have h4 : stripRightChars (("  User ".data ++ user.data) ++
        '\n' :: (("  Port ".data ++ port.data) ++ '\n' :: '\n' :: [])) =
        ("  User ".data ++ user.data) ++ '\n' :: ("  Port ".data ++ port.data) := by
      rw [stripRightChars_concat_nonempty _ _ (by rw [h3]; exact List.cons_ne_nil _ _)]
      rw [h3]
    have h5 : stripRightChars ('\n' :: (("  User ".data ++ user.data) ++
        '\n' :: (("  Port ".data ++ port.data) ++ '\n' :: '\n' :: []))) =
        '\n' :: (("  User ".data ++ user.data) ++ '\n' :: ("  Port ".data ++ port.data)) := by
      rw [stripRightChars_cons_of_ne _ _ (by
        rw [h4]
        intro hc
        exact absurd (List.append_eq_nil.mp hc).1 (by
          intro hc2
          exact absurd (List.append_eq_nil.mp hc2).1 (by decide)))]
      rw [h4]
    have h6 : stripRightChars (("  HostName ".data ++ ip.data) ++
        '\n' :: (("  User ".data ++ user.data) ++
          '\n' :: (("  Port ".data ++ port.data) ++ '\n' :: '\n' :: []))) =
        ("  HostName ".data ++ ip.data) ++
          '\n' :: (("  User ".data ++ user.data) ++
            '\n' :: ("  Port ".data ++ port.data)) := by
      rw [stripRightChars_concat_nonempty _ _ (by rw [h5]; exact List.cons_ne_nil _ _)]
      rw [h5]
    have h7 : stripRightChars ('\n' :: (("  HostName ".data ++ ip.data) ++
        '\n' :: (("  User ".data ++ user.data) ++
          '\n' :: (("  Port ".data ++ port.data) ++ '\n' :: '\n' :: [])))) =
        '\n' :: (("  HostName ".data ++ ip.data) ++
          '\n' :: (("  User ".data ++ user.data) ++
            '\n' :: ("  Port ".data ++ port.data))) := by
      rw [stripRightChars_cons_of_ne _ _ (by
        rw [h6]
        intro hc
        exact absurd (List.append_eq_nil.mp hc).1 (by
          intro hc2
          exact absurd (List.append_eq_nil.mp hc2).1 (by decide)))]
      rw [h6]
    rw [stripRightChars_concat_nonempty _ _ (by rw [h7]; exact List.cons_ne_nil _ _)]
    rw [h7]
    simp only [String.data_append,
      show "Host runpod\n  HostName ".data =
        "Host runpod".data ++ '\n' :: "  HostName ".data from by decide,
      show "\n  User ".data = '\n' :: "  User ".data from by decide,
      show "\n  Port ".data = '\n' :: "  Port ".data from by decide,
      Bool.false_eq_true, if_false, show ("" : String).data = [] from by decide,
      List.append_assoc, List.cons_append, List.append_nil, List.nil_append]
  · apply strEq_of_data
    rw [generate_ssh_config, dedentLines_sshTemplate_true]
    show pyStripChars (joinLines _) = _
    simp only [joinLines, pyStripChars, List.nil_append]
    rw [List.dropWhile_cons]
    simp only [show isPySpace '\n' = true from by decide, if_true]
    have hT : List.dropWhile isPySpace ("Host runpod".data ++
        ('\n' :: (("  HostName ".data ++ ip.data) ++
          '\n' :: (("  User ".data ++ user.data) ++
            '\n' :: (("  Port ".data ++ port.data) ++
              '\n' :: ("  ForwardAgent yes".data ++ '\n' :: [])))))) =
        "Host runpod".data ++
        ('\n' :: (("  HostName ".data ++ ip.data) ++
          '\n' :: (("  User ".data ++ user.data) ++
            '\n' :: (("  Port ".data ++ port.data) ++
              '\n' :: ("  ForwardAgent yes".data ++ '\n' :: []))))) := by
      rw [show "Host runpod".data = 'H' :: "ost runpod".data from by decide]
      rw [List.cons_append, List.dropWhile_cons]
      simp [show isPySpace 'H' = false from by decide]
    rw [hT]
    have h1 : stripRightChars ("  ForwardAgent yes".data ++ '\n' :: []) =
        "  ForwardAgent yes".data := by decide
    have h2 : stripRightChars ('\n' :: ("  ForwardAgent yes".data ++ '\n' :: [])) =
        '\n' :: "  ForwardAgent yes".data := by decide
    have h3 : stripRightChars (("  Port ".data ++ port.data) ++
        '\n' :: ("  ForwardAgent yes".data ++ '\n' :: [])) =
        ("  Port ".data ++ port.data) ++ '\n' :: "  ForwardAgent yes".data := by
      rw [stripRightChars_concat_nonempty _ _ (by rw [h2]; exact List.cons_ne_nil _ _)]
      rw [h2]
    have h4 : stripRightChars ('\n' :: (("  Port ".data ++ port.data) ++
        '\n' :: ("  ForwardAgent yes".data ++ '\n' :: []))) =
        '\n' :: (("  Port ".data ++ port.data) ++ '\n' :: "  ForwardAgent yes".data) := by
      rw [stripRightChars_cons_of_ne _ _ (by
        rw [h3]
        intro hc
        exact absurd (List.append_eq_nil.mp hc).1 (by
          intro hc2
          exact absurd (List.append_eq_nil.mp hc2).1 (by decide)))]
      rw [h3]
    have h5 : stripRightChars (("  User ".data ++ user.data) ++
        '\n' :: (("  Port ".data ++ port.data) ++
          '\n' :: ("  ForwardAgent yes".data ++ '\n' :: []))) =
        ("  User ".data ++ user.data) ++
          '\n' :: (("  Port ".data ++ port.data) ++
            '\n' :: "  ForwardAgent yes".data) := by
      rw [stripRightChars_concat_nonempty _ _ (by rw [h4]; exact List.cons_ne_nil _ _)]
      rw [h4]
    have h6 : stripRightChars ('\n' :: (("  User ".data ++ user.data) ++
        '\n' :: (("  Port ".data ++ port.data) ++
          '\n' :: ("  ForwardAgent yes".data ++ '\n' :: [])))) =
        '\n' :: (("  User ".data ++ user.data) ++
          '\n' :: (("  Port ".data ++ port.data) ++
            '\n' :: "  ForwardAgent yes".data)) := by
      rw [stripRightChars_cons_of_ne _ _ (by
        rw [h5]
        intro hc
        exact absurd (List.append_eq_nil.mp hc).1 (by
          intro hc2
          exact absurd (List.append_eq_nil.mp hc2).1 (by decide)))]
      rw [h5]
    have h7 : stripRightChars (("  HostName ".data ++ ip.data) ++
        '\n' :: (("  User ".data ++ user.data) ++
          '\n' :: (("  Port ".data ++ port.data) ++
            '\n' :: ("  ForwardAgent yes".data ++ '\n' :: [])))) =
        ("  HostName ".data ++ ip.data) ++
          '\n' :: (("  User ".data ++ user.data) ++
            '\n' :: (("  Port ".data ++ port.data) ++
              '\n' :: "  ForwardAgent yes".data)) := by
      rw [stripRightChars_concat_nonempty _ _ (by rw [h6]; exact List.cons_ne_nil _ _)]
      rw [h6]
    have h8 : stripRightChars ('\n' :: (("  HostName ".data ++ ip.data) ++
        '\n' :: (("  User ".data ++ user.data) ++
          '\n' :: (("  Port ".data ++ port.data) ++
            '\n' :: ("  ForwardAgent yes".data ++ '\n' :: []))))) =
        '\n' :: (("  HostName ".data ++ ip.data) ++
          '\n' :: (("  User ".data ++ user.data) ++
            '\n' :: (("  Port ".data ++ port.data) ++
              '\n' :: "  ForwardAgent yes".data))) := by
      rw [stripRightChars_cons_of_ne _ _ (by
        rw [h7]
        intro hc
        exact absurd (List.append_eq_nil.mp hc).1 (by
          intro hc2
          exact absurd (List.append_eq_nil.mp hc2).1 (by decide)))]
      rw [h7]
    rw [stripRightChars_concat_nonempty _ _ (by rw [h8]; exact List.cons_ne_nil _ _)]
    rw [h8]
    simp only [String.data_append,
      show "Host runpod\n  HostName ".data =
        "Host runpod".data ++ '\n' :: "  HostName ".data from by decide,
      show "\n  User ".data = '\n' :: "  User ".data from by decide,
      show "\n  Port ".data = '\n' :: "  Port ".data from by decide,
      show "\n  ForwardAgent yes".data = '\n' :: "  ForwardAgent yes".data from by decide,
      eq_self_iff_true, if_true, List.append_assoc, List.cons_append, List.append_nil,
      List.nil_append]

theorem showPod_error_shape (p : Pod) (e : PyErr) (h : showPod p = Except.error e) :
    ∃ m, e = PyErr.assertionError m := by
  rcases hl : (podReportedPorts p).filter (fun b => b.isIpPublic) with _ | ⟨b, rest⟩
  · simp only [showPod, hl] at h
    exact ⟨0, by injection h with h2; exact h2.symm⟩
  · rcases rest with _ | ⟨c, rest2⟩
    · simp only [showPod, hl] at h
      cases h
    · simp only [showPod, hl] at h
      exact ⟨(b :: c :: rest2).length, by injection h with h2; exact h2.symm⟩

theorem showPod_bad (p : Pod)
    (h : p.runtime = none ∨ (podReportedPorts p).filter (fun b => b.isIpPublic) = []) :
    showPod p = Except.error (PyErr.assertionError 0) := by
  have hfil : (podReportedPorts p).filter (fun b => b.isIpPublic) = [] := by
    rcases h with h | h
    · simp [podReportedPorts, h]
    · exact h
  simp [showPod, hfil]

theorem list_pods_error_of_mem (pods : List Pod) (p : Pod) (hp : p ∈ pods)
    (hbad : showPod p = Except.error (PyErr.assertionError 0)) :
    ∃ n, list_pods pods = Except.error (PyErr.assertionError n) := by
  induction pods with
  | nil => cases hp
  | cons q rest ih =>
    rcases List.mem_cons.mp hp with h | h
    · subst h
      refine ⟨0, ?_⟩
      simp only [list_pods, hbad]
    · cases hq : showPod q with
      | error e =>
        rcases showPod_error_shape q e hq with ⟨m, hm⟩
        subst hm
        refine ⟨m, ?_⟩
        simp only [list_pods, hq]
      | ok d =>
        rcases ih h with ⟨n, hn⟩
        refine ⟨n, ?_⟩
        simp only [list_pods, hq, hn]

/-- C1 (amended): the provisioning wait raises the provisioning-failure
error exactly when 37 consecutive polls (not 36) each return an
absent-or-empty port collection; the total number of polls never exceeds
37; in the failing run the trace is poll 0, sleep, poll 1, sleep, ...,
poll 35, sleep, poll 36 -- no delay before the first poll, a 5-second
delay after each of the first 36 failed checks and none after the 37th --
and `create_pod` then raises `RuntimeError`. -/
theorem provisioning_failure_requires_37_empty_polls (polls : Nat → Pod) :
    ((provisionWait polls).2 = none ↔
      ∀ k, k ≤ n_attempts → runtimeHasPorts (polls k).runtime = false) ∧
    pollCount (provisionWait polls).1 ≤ n_attempts + 1 ∧
    ((provisionWait polls).2 = none →
      (provisionWait polls).1 =
        (List.range n_attempts).flatMap (fun k => [Effect.apiGetPod k, Effect.sleep5]) ++
          [Effect.apiGetPod n_attempts] ∧
      pollCount (provisionWait polls).1 = n_attempts + 1 ∧
      sleepCount (provisionWait polls).1 = n_attempts) ∧
    (∀ p createResp, (provisionWait polls).2 = none →
      (create_pod p createResp polls).error = some PyErr.runtimeError) := by
  refine ⟨?_, ?_, ?_, ?_⟩
  · have h := provisionPollAux_none_iff polls n_attempts 0
    simpa [provisionWait] using h
  · exact provisionPollAux_pollCount_le polls n_attempts 0
  · intro hn
    rw [provisionWait] at hn ⊢
    rw [provisionPollAux_none_trace polls n_attempts 0 hn]
    exact ⟨by decide, by decide, by decide⟩
  · intro p createResp hn
    simp [create_pod, hn]

/-- C1 counterexample: with poll responses whose first 36 polls all report
an absent port collection, the waiter does not fail after those 36 polls:
it makes a 37th poll, sees ports, and succeeds, so the total attempt count
reaches 37. -/
theorem provisioning_failure_at_36_counterexample :
    (∀ k, k < 36 → runtimeHasPorts (polls36Fail k).runtime = false) ∧
    (provisionWait polls36Fail).2 = some 36 ∧
    pollCount (provisionWait polls36Fail).1 = 37 := by
  refine ⟨by decide, by decide, by decide⟩

/-- Witness for C1's amended theorem at a never-ready poll sequence. -/
theorem provisioning_failure_requires_37_empty_polls_witness :
    (provisionWait pollsNeverReady).2 = none ∧
    (create_pod {} {} pollsNeverReady).error = some PyErr.runtimeError := by
  have h := provisioning_failure_requires_37_empty_polls pollsNeverReady
  have hn : (provisionWait pollsNeverReady).2 = none := h.1.mpr (fun k _ => rfl)
  exact ⟨hn, h.2.2.2 {} {} hn⟩

/-- C2: for every runtime, the sleep segment embedded in the generated
startup command is ` sleep max(runtime*60, 20); `, and concretely runtime 1
yields `sleep 60` while runtime 0 yields `sleep 20`. -/
theorem startup_sleep_duration (r : Int) (_hr : 0 ≤ r) (a mp : String) :
    (∃ pre post, buildDockerArgs a mp r =
       pre ++ (" sleep " ++ toString (max (r * 60) 20) ++ "; ") ++ post) ∧
    buildDockerArgs "" "/ssd" 1 =
      "/bin/bash -c \x27/ssd/start.sh; sleep 60; /ssd/terminate.sh\x27" ∧
    buildDockerArgs "" "/ssd" 0 =
      "/bin/bash -c \x27/ssd/start.sh; sleep 20; /ssd/terminate.sh\x27" := by
  refine ⟨?_, by decide, by decide⟩
  refine ⟨"/bin/bash -c \x27" ++ mp ++ "/start.sh;" ++
    (if a = "" then "" else " " ++ a ++ ";"), mp ++ "/terminate.sh\x27", ?_⟩
  simp [buildDockerArgs, String.append_assoc]

/-- Witness for C2 at runtime 1 with empty args. -/
theorem startup_sleep_duration_witness :
    ∃ pre post, buildDockerArgs "" "/ssd" 1 =
      pre ++ (" sleep " ++ toString (max ((1 : Int) * 60) 20) ++ "; ") ++ post :=
  (startup_sleep_duration 1 (by decide) "" "/ssd").1

/-- C3: for non-empty user args the startup command is one shell invocation
chaining the mount path's start.sh, then the literal args, then the sleep,
then the mount path's terminate.sh, in that order; for empty args nothing
stands between start.sh and the sleep. -/
theorem startup_command_order :
    (∀ a : String, a ≠ "" → ∀ mp : String, ∀ r : Int,
      buildDockerArgs a mp r =
        "/bin/bash -c \x27" ++ mp ++ "/start.sh;" ++ (" " ++ a ++ ";") ++ " sleep " ++
          toString (max (r * 60) 20) ++ "; " ++ mp ++ "/terminate.sh\x27") ∧
    (∀ mp : String, ∀ r : Int,
      buildDockerArgs "" mp r =
        "/bin/bash -c \x27" ++ mp ++ "/start.sh;" ++ " sleep " ++
          toString (max (r * 60) 20) ++ "; " ++ mp ++ "/terminate.sh\x27") := by
  constructor
  · intro a ha mp r
    simp [buildDockerArgs, ha]
  · intro mp r
    simp [buildDockerArgs]

/-- Witness for C3 at a concrete non-empty args value. -/
theorem startup_command_order_witness :
    buildDockerArgs "python x.py" "/ssd" 2 =
      "/bin/bash -c \x27" ++ "/ssd" ++ "/start.sh;" ++ (" " ++ "python x.py" ++ ";") ++
        " sleep " ++ toString (max ((2 : Int) * 60) 20) ++ "; " ++ "/ssd" ++
        "/terminate.sh\x27" :=
  startup_command_order.1 "python x.py" (by decide) "/ssd" 2

/-- C4: the wait loop exits successfully at the first poll whose response
carries a non-empty port collection, however many failed polls preceded it
(among the at most 37 polls the loop can make), and makes no further polls
after that point. -/
theorem ready_on_first_nonempty_ports_poll (polls : Nat → Pod) (j0 : Nat)
    (hj0 : j0 ≤ n_attempts)
    (hok : runtimeHasPorts (polls j0).runtime = true)
    (hfirst : ∀ k, k < j0 → runtimeHasPorts (polls k).runtime = false) :
    (provisionWait polls).2 = some j0 ∧
    pollCount (provisionWait polls).1 = j0 + 1 := by
  have h := provisionPollAux_ready polls n_attempts 0 j0 (Nat.zero_le _) (by omega) hok
    (fun k _ hk2 => hfirst k hk2)
  simpa [provisionWait] using h

/-- Witness for C4 with 3 failed polls before the first successful one. -/
theorem ready_on_first_nonempty_ports_poll_witness :
    (provisionWait polls3Fail).2 = some 3 ∧ pollCount (provisionWait polls3Fail).1 = 4 :=
  ready_on_first_nonempty_ports_poll polls3Fail 3 (by decide) (by decide) (by decide)

/-- C5: once the waiter reaches a ready poll whose port collection does not
contain exactly one public-flagged binding, `create_pod` raises the
assertion (integrity) error, which is distinct from the provisioning
`RuntimeError`; it makes no further polls, prints no connection info and
writes no SSH config. -/
theorem integrity_error_on_bad_public_port_count (p : CreateParams) (createResp : Pod)
    (polls : Nat → Pod) (j0 : Nat)
    (hj0 : j0 ≤ n_attempts)
    (hok : runtimeHasPorts (polls j0).runtime = true)
    (hfirst : ∀ k, k < j0 → runtimeHasPorts (polls k).runtime = false)
    (hbad : ((podReportedPorts (polls j0)).filter (fun b => b.isIpPublic)).length ≠ 1) :
    (create_pod p createResp polls).error =
      some (PyErr.assertionError
        ((podReportedPorts (polls j0)).filter (fun b => b.isIpPublic)).length) ∧
    (∀ n, PyErr.assertionError n ≠ PyErr.runtimeError) ∧
    pollCount (create_pod p createResp polls).trace = j0 + 1 ∧
    (∀ h i pt, Effect.printConnectionInfo h i pt ∉ (create_pod p createResp polls).trace) ∧
    (∀ pth c, Effect.writeFile pth c ∉ (create_pod p createResp polls).trace) := by
  have hsome := provisionPollAux_ready polls n_attempts 0 j0 (Nat.zero_le _) (by omega) hok
    (fun k _ hk2 => hfirst k hk2)
  have hw : (provisionWait polls).2 = some j0 := hsome.1
  have hwc : pollCount (provisionWait polls).1 = j0 + 1 := by
    have := hsome.2
    simpa [provisionWait] using this
  rcases hl : (podReportedPorts (polls j0)).filter (fun b => b.isIpPublic) with _ | ⟨b, rest⟩
  · refine ⟨?_, fun n => by simp, ?_, ?_, ?_⟩
    · simp [create_pod, hw, hl]
    · simp only [create_pod, hw, hl]
      rw [List.cons_append, pollCount_cons, pollCount_append, hwc]
      simp [isPollEffect, pollCount, List.filter]
    · intro h i pt hmem
      simp only [create_pod, hw, hl, List.cons_append, List.mem_cons, List.mem_append] at hmem
      rcases hmem with hmem | hmem | hmem
      · cases hmem
      · rcases provisionPollAux_mem_shape polls n_attempts 0 _ hmem with ⟨k, hk⟩ | hk <;> cases hk
      · simp at hmem
    · intro pth c hmem
      simp only [create_pod, hw, hl, List.cons_append, List.mem_cons, List.mem_append] at hmem
      rcases hmem with hmem | hmem | hmem
      · cases hmem
      · rcases provisionPollAux_mem_shape polls n_attempts 0 _ hmem with ⟨k, hk⟩ | hk <;> cases hk
      · simp at hmem
  · rcases rest with _ | ⟨c, rest2⟩
    · exfalso; rw [hl] at hbad; simp at hbad
    · refine ⟨?_, fun n => by simp, ?_, ?_, ?_⟩
      · simp [create_pod, hw, hl]
      · simp only [create_pod, hw, hl]
        rw [List.cons_append, pollCount_cons, pollCount_append, hwc]
        simp [isPollEffect, pollCount, List.filter]
      · intro h i pt hmem
        simp only [create_pod, hw, hl, List.cons_append, List.mem_cons, List.mem_append] at hmem
        rcases hmem with hmem | hmem | hmem
        · cases hmem
        · rcases provisionPollAux_mem_shape polls n_attempts 0 _ hmem with ⟨k, hk⟩ | hk <;> cases hk
        · simp at hmem
      · intro pth c hmem
        simp only [create_pod, hw, hl, List.cons_append, List.mem_cons, List.mem_append] at hmem
        rcases hmem with hmem | hmem | hmem
        · cases hmem
        · rcases provisionPollAux_mem_shape polls n_attempts 0 _ hmem with ⟨k, hk⟩ | hk <;> cases hk
        · simp at hmem

/-- Witness for C5 at a ready pod with two public-flagged bindings. -/
theorem integrity_error_on_bad_public_port_count_witness :
    (create_pod {} {} (fun _ => twoPublicPod)).error = some (PyErr.assertionError 2) ∧
    Effect.printConnectionInfo none (some "1.2.3.4") (some 40022) ∉
      (create_pod {} {} (fun _ => twoPublicPod)).trace := by
  have h := integrity_error_on_bad_public_port_count {} {} (fun _ => twoPublicPod) 0
    (by decide) (by decide) (fun k hk => absurd hk (Nat.not_lt_zero k)) (by decide)
  exact ⟨by rw [h.1]; decide, h.2.2.2.1 none (some "1.2.3.4") (some 40022)⟩

set_option maxRecDepth 10000 in
/-- C6: given a ready pod whose port collection is a non-public binding
followed by the public binding (ip 1.2.3.4, external port 40022),
`create_pod` succeeds and prints exactly that ip and port as the
connection info. -/
theorem result_presenter_extracts_public_binding :
    (create_pod {} {} (fun _ => mixedPortsPod)).error = none ∧
    Effect.printConnectionInfo none (some "1.2.3.4") (some 40022) ∈
      (create_pod {} {} (fun _ => mixedPortsPod)).trace := by
  exact ⟨by decide, by decide⟩

/-- C7: when every poll in the budget reports an absent-or-empty port
collection, `create_pod` fails with the provisioning `RuntimeError` and its
effect trace contains no pod-termination call: the partially created pod is
left untouched on the provider side. -/
theorem provisioning_timeout_no_cleanup (p : CreateParams) (createResp : Pod)
    (polls : Nat → Pod)
    (hall : ∀ k, k ≤ n_attempts → runtimeHasPorts (polls k).runtime = false) :
    (create_pod p createResp polls).error = some PyErr.runtimeError ∧
    ∀ e ∈ (create_pod p createResp polls).trace, terminatesPod e = false := by
  have hn : (provisionWait polls).2 = none := by
    rw [provisionWait, provisionPollAux_none_iff]
    intro k hk; simpa using hall k hk
  constructor
  · simp [create_pod, hn]
  · intro e he
    simp only [create_pod, hn] at he
    rcases List.mem_cons.mp he with he | he
    · subst he; rfl
    · rcases List.mem_append.mp he with he | he
      · rcases provisionPollAux_mem_shape polls n_attempts 0 e he with ⟨k, hk⟩ | hk
        · subst hk; rfl
        · subst hk; rfl
      · simp at he; subst he; rfl

/-- Witness for C7 at a never-ready poll sequence with default parameters. -/
theorem provisioning_timeout_no_cleanup_witness :
    (create_pod {} {} pollsNeverReady).error = some PyErr.runtimeError ∧
    ∀ e ∈ (create_pod {} {} pollsNeverReady).trace, terminatesPod e = false :=
  provisioning_timeout_no_cleanup {} {} pollsNeverReady (fun _ _ => rfl)

/-- C8: when the bearer token is absent from the environment, the manager
constructor raises the fatal `ValueError`, and no effect of the constructor
is a network call, so no provider API call precedes the credential check
(every operation needs a constructed manager). -/
theorem missing_api_key_fatal_before_network (envKey : Option String) :
    (envKey = none → (initRunPodManager envKey).2 = Except.error PyErr.valueError) ∧
    (∀ e ∈ (initRunPodManager envKey).1, isNetworkCall e = false) := by
  constructor
  · intro h
    subst h
    rfl
  · intro e he
    have htr : (initRunPodManager envKey).1 =
        [Effect.loadDotenv, Effect.getEnv "RUNPOD_API_KEY"] := by
      cases envKey with
      | none => rfl
      | some k =>
        by_cases hk : k = ""
        · simp [initRunPodManager, hk]
        · simp [initRunPodManager, hk]
    rw [htr] at he
    rcases List.mem_cons.mp he with he | he
    · subst he; rfl
    · rcases List.mem_cons.mp he with he | he
      · subst he; rfl
      · cases he

/-- Witness for C8 at an absent environment variable. -/
theorem missing_api_key_fatal_before_network_witness :
    (initRunPodManager none).2 = Except.error PyErr.valueError :=
  (missing_api_key_fatal_before_network none).1 rfl

/-- C9: the SSH config fragment consists of the Host, HostName, User and
Port lines, with a ForwardAgent yes line exactly when agent forwarding is
requested; `write_text` replaces any prior file content entirely; and a
successful `create_pod` with `update_ssh_config` performs exactly one file
write, to `.ssh/runpod_config`, whose content is exactly the generated
fragment for the extracted public binding. -/
theorem ssh_config_write_exact :
    (∀ ip port user : String, ∀ fa : Bool, port.data ≠ [] →
      stripRightChars port.data = port.data →
      generate_ssh_config ip port user fa =
        "Host runpod\n  HostName " ++ ip ++ "\n  User " ++ user ++ "\n  Port " ++ port ++
          (if fa then "\n  ForwardAgent yes" else "")) ∧
    (∀ (prior : Option String) (content : String), write_text prior content = content) ∧
    (∀ (p : CreateParams) (createResp : Pod) (polls : Nat → Pod) (j0 : Nat)
       (b : PortBinding),
      j0 ≤ n_attempts →
      runtimeHasPorts (polls j0).runtime = true →
      (∀ k, k < j0 → runtimeHasPorts (polls k).runtime = false) →
      (podReportedPorts (polls j0)).filter (fun x => x.isIpPublic) = [b] →
      p.update_ssh_config = true →
      (create_pod p createResp polls).error = none ∧
      (create_pod p createResp polls).trace.filter isWriteFile =
        [Effect.writeFile ".ssh/runpod_config"
          (generate_ssh_config (pyOptStr b.ip) (pyOptNat b.publicPort) "root"
            p.forward_agent)]) := by
  refine ⟨generate_ssh_config_fragment, fun _ _ => rfl, ?_⟩
  intro p createResp polls j0 b hj0 hok hfirst hfilter hcfg
  have hsome := provisionPollAux_ready polls n_attempts 0 j0 (Nat.zero_le _) (by omega) hok
    (fun k _ hk2 => hfirst k hk2)
  have hw : (provisionWait polls).2 = some j0 := hsome.1
  have hwait : (provisionWait polls).1.filter isWriteFile = [] := by
    rw [List.filter_eq_nil_iff]
    intro e he
    rcases provisionPollAux_mem_shape polls n_attempts 0 e he with ⟨k, hk⟩ | hk
    · subst hk; simp [isWriteFile]
    · subst hk; simp [isWriteFile]
  constructor
  · simp [create_pod, hw, hfilter]
  · simp only [create_pod, hw, hfilter, hcfg, if_true]
    simp [List.filter_cons, List.filter_append, hwait, isWriteFile]

/-- Witness for C9 at concrete ip 1.2.3.4, port 40022, user root. -/
theorem ssh_config_write_exact_witness :
    (generate_ssh_config "1.2.3.4" "40022" "root" false =
      "Host runpod\n  HostName " ++ "1.2.3.4" ++ "\n  User " ++ "root" ++ "\n  Port " ++
        "40022" ++ (if false then "\n  ForwardAgent yes" else "")) ∧
    (create_pod {} {} (fun _ => mixedPortsPod)).trace.filter isWriteFile =
      [Effect.writeFile ".ssh/runpod_config"
        (generate_ssh_config (pyOptStr (some "1.2.3.4")) (pyOptNat (some 40022)) "root"
          false)] := by
  have h := ssh_config_write_exact
  refine ⟨h.1 "1.2.3.4" "40022" "root" false (by decide) (by decide), ?_⟩
  have h3 := h.2.2 {} {} (fun _ => mixedPortsPod) 0
    ⟨true, some "1.2.3.4", some 40022⟩ (by decide) (by decide)
    (fun k hk => absurd hk (Nat.not_lt_zero k)) (by decide) rfl
  exact h3.2

/-- C10: `list_pods` and `get_pod` apply the exactly-one-public-port
assertion to every pod unconditionally, not only to running pods: a pod
with an absent runtime descriptor or with no public-flagged binding makes
the operation fail with an `AssertionError` instead of displaying the pod. -/
theorem list_get_assert_unconditionally :
    (∀ (pods : List Pod) (p : Pod), p ∈ pods →
      (p.runtime = none ∨ (podReportedPorts p).filter (fun b => b.isIpPublic) = []) →
      ∃ n, list_pods pods = Except.error (PyErr.assertionError n)) ∧
    (∀ p : Pod,
      (p.runtime = none ∨ (podReportedPorts p).filter (fun b => b.isIpPublic) = []) →
      get_pod p = Except.error (PyErr.assertionError 0)) := by
  constructor
  · intro pods p hp hbad
    exact list_pods_error_of_mem pods p hp (showPod_bad p hbad)
  · intro p hbad
    simp only [get_pod, showPod_bad p hbad]

/-- Witness for C10 at a single still-provisioning pod. -/
theorem list_get_assert_unconditionally_witness :
    (∃ n, list_pods [pendingPod] = Except.error (PyErr.assertionError n)) ∧
    get_pod pendingPod = Except.error (PyErr.assertionError 0) :=
  ⟨list_get_assert_unconditionally.1 [pendingPod] pendingPod (List.mem_singleton.mpr rfl)
      (Or.inl rfl),
   list_get_assert_unconditionally.2 pendingPod (Or.inl rfl)⟩
